import Mathlib

/-!
Shallow embedding of the tiiuae/DBus_proxy forwarding engine.

The repository contains three overlapping proxy variants:
- `src/DBus_proxy.c` : cross-bus proxy with a per-context `ProxyContext`
  struct (namespace `DBusProxy` below);
- the first file of `src/unnamed/part_000` : single-bus proxy driven by a
  configuration file (namespace `ConfigProxy` below);
- the second file of `src/unnamed/part_000` : cross-bus proxy with a global
  `ProxyState` whose hash tables form a resource ledger (namespace
  `CrossBusProxy` below).

Payloads are modelled as unexamined typed blobs (`GVariant`), bus-side effects
as explicit action lists, and the bus responses that the code branches on
(connection results, introspection replies, registration ids, call
outcomes) as explicit inputs, so every definition is executable.
-/

set_option autoImplicit false

/-- A D-Bus value: an unexamined basic payload, a variant-wrapped value, or one
of the tuple shapes the proxy code actually builds and inspects —
the `"(v)"`, `"(ss)"` and `"(ssv)"` containers of the property relay. -/
inductive GVariant where
  | basic (payload : String)
  | variant (v : GVariant)
  | tuple1 (a : GVariant)
  | tuple2 (a b : GVariant)
  | tuple3 (a b c : GVariant)
deriving Repr, DecidableEq

/-- A GLib error: quark domain, numeric code and human-readable message. -/
structure GError where
  domain : String
  code : Nat
  message : String
deriving Repr, DecidableEq

/-- The `G_IO_ERROR` quark domain used by
`g_dbus_method_invocation_return_error_literal` in the config-file variant. -/
def G_IO_ERROR : String := "g-io-error-quark"

/-- The `G_IO_ERROR_FAILED` code (value 0 in GLib). -/
def G_IO_ERROR_FAILED : Nat := 0

/-- One interface of the introspection data: its name and the names of its
declared signals (methods and properties are dispatched by name at runtime
and never enumerated by the proxy, so they are not modelled). -/
structure InterfaceInfo where
  name : String
  signals : List String
deriving Repr, DecidableEq

/-- An action performed on a `GDBusMethodInvocation`, that is, a reply
delivered to the original inbound invocation. -/
inductive InvocationAction where
  | return_value (v : GVariant)
  | return_gerror (e : GError)
  | return_error_literal (domain : String) (code : Nat) (msg : String)
deriving Repr, DecidableEq

/-- An operation the proxy performs against one of its bus connections. -/
inductive BusAction where
  | connect_source
  | connect_target
  | introspect_call
  | register_object (iface : String)
  | signal_subscribe (iface : String) (sig : String)
  | own_name (busName : String)
  | unregister_object (id : Nat)
  | signal_unsubscribe (id : Nat)
deriving Repr, DecidableEq

/-- The outbound call issued by a method-call handler: destination service,
object path, interface, method and the relayed parameters. -/
structure ForwardedCall where
  dest : String
  path : String
  iface : String
  method : String
  parameters : GVariant
deriving Repr, DecidableEq

/-- The observable behaviour of one run of a signal-relay handler: the
messages it logged, whether it freed the emission error, and the error it
propagated to its caller (the C handlers return `void`, so this is always
`none`; it is recorded to state that fact). -/
structure SignalHandlerRun where
  logged : List String
  freed_error : Bool
  raised : Option GError
deriving Repr, DecidableEq

namespace DBusProxy

/-- Per-context state of `src/DBus_proxy.c`: a single `registration_id`
field (overwritten on every loop iteration of `setup_proxy`) and the
prepend-list of signal subscription ids. -/
structure ProxyContext where
  registration_id : Nat
  signal_subscriptions : List Nat
deriving Repr, DecidableEq

/-- The body of `handle_method_call` in `src/DBus_proxy.c` (lines 29-70):
it only issues the asynchronous forwarded call, carrying the parameters
through unchanged, and delivers no reply itself. -/
def handle_method_call (source_bus_name source_object_path iface method : String)
    (params : GVariant) : ForwardedCall × List InvocationAction :=
  ({ dest := source_bus_name, path := source_object_path, iface := iface,
     method := method, parameters := params }, [])

/-- The completion callback inside `handle_method_call` of
`src/DBus_proxy.c` (lines 57-68), run once when the forwarded call
finishes: a result is returned verbatim via
`g_dbus_method_invocation_return_value`, an error verbatim via
`g_dbus_method_invocation_return_gerror`. -/
def handle_method_call_callback (outcome : Except GError GVariant) :
    List InvocationAction :=
  match outcome with
  | .ok result => [InvocationAction.return_value result]
  | .error e => [InvocationAction.return_gerror e]

/-- The `g_variant_get(result, "(v)", &value)` step of
`handle_get_property`: unwraps the variant inside the 1-tuple reply of
`org.freedesktop.DBus.Properties.Get`. The reply type `"(v)"` is enforced
by `g_dbus_connection_call_sync`, so the fallback branch is unreachable on
replies the code can actually receive. -/
def g_variant_get_v (result : GVariant) : GVariant :=
  match result with
  | .tuple1 (.variant value) => value
  | other => other

/-- The body of `handle_get_property` in `src/DBus_proxy.c` (lines
107-140), as a function of the synchronous Properties.Get call result: on
success the variant-wrapped value is unwrapped and returned, on failure
`NULL` is returned with the source error left in the caller-provided
`GError` slot, untouched. -/
def handle_get_property (callResult : Except GError GVariant) :
    Except GError GVariant :=
  match callResult with
  | .ok result => .ok (g_variant_get_v result)
  | .error e => .error e

/-- The `"(ss)"` parameters built for the forwarded Properties.Get call. -/
def get_call_parameters (iface prop : String) : GVariant :=
  .tuple2 (.basic iface) (.basic prop)

/-- The `"(ssv)"` parameters `handle_set_property` builds with
`g_variant_new` for the forwarded Properties.Set call: the caller-provided
value is placed unchanged as the variant member. -/
def set_call_parameters (iface prop : String) (value : GVariant) : GVariant :=
  .tuple3 (.basic iface) (.basic prop) (.variant value)

/-- The body of `handle_set_property` in `src/DBus_proxy.c` (lines
143-175), as a function of the synchronous Properties.Set call result:
`TRUE` on success, `FALSE` on failure with the source error left verbatim
in the caller-provided `GError` slot. -/
def handle_set_property (callResult : Except GError GVariant) :
    Except GError Unit :=
  match callResult with
  | .ok _ => .ok ()
  | .error e => .error e

/-- The body of `on_signal_received` in `src/DBus_proxy.c` (lines 73-104):
an optional verbose trace, the re-emission on the target bus, and on
emission failure an unconditional log line plus `g_error_free`; the
handler returns `void`, so nothing is ever propagated to its caller. -/
def on_signal_received (verbose : Bool) (iface sig : String)
    (emitOutcome : Except GError Unit) : SignalHandlerRun :=
  let pre := if verbose then ["Forwarding signal: " ++ iface ++ "." ++ sig] else []
  match emitOutcome with
  | .ok _ => { logged := pre, freed_error := false, raised := none }
  | .error e =>
      { logged := pre ++ ["Failed to emit signal: " ++ e.message],
        freed_error := true, raised := none }

/-- Delivery of a whole stream of source-bus signals to
`on_signal_received`, in order, as the event loop does: each received
signal is handled independently of the outcomes of the earlier ones. -/
def forward_signals (verbose : Bool) :
    List (String × String × Except GError Unit) → List SignalHandlerRun
  | [] => []
  | (iface, sig, outcome) :: rest =>
      on_signal_received verbose iface sig outcome :: forward_signals verbose rest

end DBusProxy

namespace ConfigProxy

/-- The completion callback inside `handle_method_call` of the config-file
variant (part_000 lines 223-241): a result is returned verbatim, but a
failure is reported via `g_dbus_method_invocation_return_error_literal`
with the fixed `G_IO_ERROR` domain and `G_IO_ERROR_FAILED` code, keeping
only the source error message. -/
def handle_method_call_callback (outcome : Except GError GVariant) :
    List InvocationAction :=
  match outcome with
  | .ok result => [InvocationAction.return_value result]
  | .error e =>
      [InvocationAction.return_error_literal G_IO_ERROR G_IO_ERROR_FAILED e.message]

/-- The body of `on_signal_received` in the config-file variant (part_000
lines 339-365): the failure branch is guarded by
`if (!success && config.verbose)`, so with verbose mode off a failed
emission is neither logged nor freed; the handler returns `void` either
way. -/
def on_signal_received (verbose : Bool) (iface sig : String)
    (emitOutcome : Except GError Unit) : SignalHandlerRun :=
  let pre := if verbose then ["Forwarding signal: " ++ iface ++ "." ++ sig] else []
  match emitOutcome with
  | .ok _ => { logged := pre, freed_error := false, raised := none }
  | .error e =>
      if verbose then
        { logged := pre ++ ["Failed to emit signal: " ++ e.message],
          freed_error := true, raised := none }
      else
        { logged := pre, freed_error := false, raised := none }

/-- Signal-stream delivery to the config-file handler, in order. -/
def forward_signals (verbose : Bool) :
    List (String × String × Except GError Unit) → List SignalHandlerRun
  | [] => []
  | (iface, sig, outcome) :: rest =>
      on_signal_received verbose iface sig outcome :: forward_signals verbose rest

/-- The single `subscribe_to_properties_changed` call of the config-file
variant (part_000 lines 368-391): one subscription on the Properties
interface for the PropertiesChanged signal, scoped to the object path. -/
def subscribe_to_properties_changed : List BusAction :=
  [BusAction.signal_subscribe "org.freedesktop.DBus.Properties" "PropertiesChanged"]

/-- The registration loop of the config-file main (part_000 lines
531-575): each interface is paired with the registration id the bus
returned for it (0 on failure); a failed registration is logged and
skipped (`continue`), a successful one is followed by one subscription per
declared signal. -/
def register_loop : List (InterfaceInfo × Nat) → List BusAction
  | [] => []
  | (iface, regId) :: rest =>
      if regId = 0 then
        BusAction.register_object iface.name :: register_loop rest
      else
        BusAction.register_object iface.name ::
          (iface.signals.map (BusAction.signal_subscribe iface.name) ++ register_loop rest)

/-- The facade-setup phase of the config-file main after introspection
succeeded: the registration loop, then the single PropertiesChanged
subscription, then `g_bus_own_name`. -/
def setup_actions (ifaces : List (InterfaceInfo × Nat)) (proxyName : String) :
    List BusAction :=
  register_loop ifaces ++ subscribe_to_properties_changed ++ [BusAction.own_name proxyName]

end ConfigProxy

namespace CrossBusProxy

/-- The completion callback inside `handle_method_call` of the cross-bus
variant (part_000 lines 698-711): result verbatim, error verbatim via
`g_dbus_method_invocation_return_gerror`. -/
def handle_method_call_callback (outcome : Except GError GVariant) :
    List InvocationAction :=
  match outcome with
  | .ok result => [InvocationAction.return_value result]
  | .error e => [InvocationAction.return_gerror e]

/-- The body of `on_signal_received` in the cross-bus variant (part_000
lines 789-815): verbose traces, and on failure an unconditional
`log_error` plus `g_error_free`; the handler returns `void`. -/
def on_signal_received (verbose : Bool) (iface sig : String)
    (emitOutcome : Except GError Unit) : SignalHandlerRun :=
  let pre := if verbose then ["Signal received: " ++ iface ++ "." ++ sig] else []
  match emitOutcome with
  | .ok _ =>
      { logged := pre ++ (if verbose then ["Signal forwarded successfully"] else []),
        freed_error := false, raised := none }
  | .error e =>
      { logged := pre ++ ["Failed to forward signal: " ++ e.message],
        freed_error := true, raised := none }

/-- Signal-stream delivery to the cross-bus handler, in order. -/
def forward_signals (verbose : Bool) :
    List (String × String × Except GError Unit) → List SignalHandlerRun
  | [] => []
  | (iface, sig, outcome) :: rest =>
      on_signal_received verbose iface sig outcome :: forward_signals verbose rest

end CrossBusProxy

namespace DBusProxy

/-- The bus responses `setup_proxy` branches on: the two connection
attempts, the synchronous introspection call, and the parsed node info.
Each interface of the node info is paired with the registration id the
target bus returns for `g_dbus_connection_register_object` on it
(0 meaning failure), which is the only bus response the registration loop
inspects. -/
structure Env where
  source_bus : Except GError Unit
  target_bus : Except GError Unit
  introspect_reply : Except GError Unit
  node_info : Except GError (List (InterfaceInfo × Nat))

/-- An environment in which both connections, the introspection call and
the XML parse all succeed, yielding the given interface list. -/
def Env.allOk (ifaces : List (InterfaceInfo × Nat)) : Env :=
  { source_bus := .ok (), target_bus := .ok (), introspect_reply := .ok (),
    node_info := .ok ifaces }

/-- The outcome of `setup_proxy`: the context it returns (`none` models the
`NULL` return), the bus operations it performed, and the stderr lines it
printed. -/
structure SetupResult where
  ctx : Option ProxyContext
  actions : List BusAction
  errors : List String
deriving Repr

/-- The inner signal loop of `setup_proxy` (lines 297-315): one
`g_dbus_connection_signal_subscribe` per declared signal of the interface,
each returned id prepended to the subscription list (`g_list_prepend`).
Subscription ids are modelled as allocated sequentially from `nextId`. -/
def subscribe_signals (ifaceName : String) (sigs : List String) (nextId : Nat)
    (subs : List Nat) : List Nat × List BusAction × Nat :=
  match sigs with
  | [] => (subs, [], nextId)
  | s :: rest =>
      let (subs2, acts, n) := subscribe_signals ifaceName rest (nextId + 1) (nextId :: subs)
      (subs2, BusAction.signal_subscribe ifaceName s :: acts, n)

/-- The registration loop of `setup_proxy` (lines 278-316): for each
interface, the result of `g_dbus_connection_register_object` is assigned
to the single `registration_id` field of the context before the zero
check, so a failed registration stores 0 in that field, is logged and
skipped with `continue`; a successful one keeps its id stored and
subscribes to the declared signals of the interface. -/
def register_loop (ifaces : List (InterfaceInfo × Nat)) (nextSubId : Nat)
    (ctx : ProxyContext) : ProxyContext × List BusAction × Nat :=
  match ifaces with
  | [] => (ctx, [], nextSubId)
  | (iface, regId) :: rest =>
      let ctx1 : ProxyContext := { ctx with registration_id := regId }
      if regId = 0 then
        let (ctx2, acts, n) := register_loop rest nextSubId ctx1
        (ctx2, BusAction.register_object iface.name :: acts, n)
      else
        let (subs, subActs, n1) :=
          subscribe_signals iface.name iface.signals nextSubId ctx1.signal_subscriptions
        let ctx2 : ProxyContext := { ctx1 with signal_subscriptions := subs }
        let (ctx3, acts, n2) := register_loop rest n1 ctx2
        (ctx3, BusAction.register_object iface.name :: (subActs ++ acts), n2)

/-- The whole of `setup_proxy` in `src/DBus_proxy.c` (lines 195-329):
connect to the source bus (failure is fatal, before any introspection),
connect to the target bus, introspect, parse, run the registration loop,
then unconditionally own the proxy name on the target bus and return the
context. Only the constant prefix of each stderr line and the GLib message
are modelled. -/
def setup_proxy (env : Env)
    (source_address target_address source_service source_path proxy_service : String) :
    SetupResult :=
  match env.source_bus with
  | .error e =>
      { ctx := none, actions := [BusAction.connect_source],
        errors := ["Failed to connect to source bus (" ++ source_address ++ "): "
                     ++ e.message] }
  | .ok _ =>
  match env.target_bus with
  | .error e =>
      { ctx := none, actions := [BusAction.connect_source, BusAction.connect_target],
        errors := ["Failed to connect to target bus (" ++ target_address ++ "): "
                     ++ e.message] }
  | .ok _ =>
  match env.introspect_reply with
  | .error e =>
      { ctx := none,
        actions := [BusAction.connect_source, BusAction.connect_target,
                    BusAction.introspect_call],
        errors := ["Introspection failed for " ++ source_service ++ ": " ++ e.message] }
  | .ok _ =>
  match env.node_info with
  | .error e =>
      { ctx := none,
        actions := [BusAction.connect_source, BusAction.connect_target,
                    BusAction.introspect_call],
        errors := ["Failed to parse introspection XML: " ++ e.message] }
  | .ok ifaces =>
      let (ctx, acts, _) :=
        register_loop ifaces 1 { registration_id := 0, signal_subscriptions := [] }
      { ctx := some ctx,
        actions := [BusAction.connect_source, BusAction.connect_target,
                    BusAction.introspect_call]
          ++ acts ++ [BusAction.own_name proxy_service],
        errors := [] }

/-- The body of `cleanup_proxy` in `src/DBus_proxy.c` (lines 332-364):
every id in the subscription list is unsubscribed on the source bus, and
the single stored `registration_id` is unregistered on the target bus when
it is positive. -/
def cleanup_proxy (ctx : ProxyContext) : List BusAction :=
  ctx.signal_subscriptions.map BusAction.signal_unsubscribe ++
    (if ctx.registration_id > 0 then [BusAction.unregister_object ctx.registration_id]
     else [])

/-- One invocation of `cleanup_proxy` as a transformer of the
caller-visible context, for comparison with the ledger semantics of
`cleanup_proxy_state`: a `NULL` argument returns at once
(`if (!ctx) return;`), and otherwise the function walks the subscription
list, conditionally unregisters and frees the struct — but it clears no
field and cannot null the pointer held by the caller, so the
caller-visible context after the call is the same (now dangling) context,
and a repeated invocation walks the same lists again. -/
def cleanup_proxy_call (ctx : Option ProxyContext) :
    Option ProxyContext × List BusAction :=
  match ctx with
  | none => (none, [])
  | some c => (some c, cleanup_proxy c)

/-- The registration ids actually handed out during facade setup: one per
interface whose registration did not fail. -/
def created_registrations (ifaces : List (InterfaceInfo × Nat)) : List Nat :=
  (ifaces.filter (fun p => p.2 != 0)).map (fun p => p.2)

/-- The exit status of `main` in `src/DBus_proxy.c` as a function of the
setup outcome (lines 413-418): 1 when `setup_proxy` returned `NULL`,
otherwise the loop runs and the process later exits 0. -/
def main_exit (env : Env)
    (source_address target_address source_service source_path proxy_service : String) :
    Nat :=
  match (setup_proxy env source_address target_address source_service source_path
          proxy_service).ctx with
  | none => 1
  | some _ => 0

end DBusProxy

namespace CrossBusProxy

/-- The resource ledger of the cross-bus variant (part_000 lines 630-637):
the `registered_objects` hash table mapping registration ids to interface
names and the `signal_subscriptions` hash table mapping subscription ids
to labels, modelled as association lists in insertion order. -/
structure ProxyState where
  registered_objects : List (Nat × String)
  signal_subscriptions : List (Nat × String)
deriving Repr, DecidableEq

/-- The inner signal loop of `setup_proxy_interfaces` (part_000 lines
962-982): subscribe to each declared signal of the interface and track the
id in the ledger with the label `iface.signal`. -/
def subscribe_all (ifaceName : String) (sigs : List String) (nextId : Nat)
    (st : ProxyState) : ProxyState × List BusAction × Nat :=
  match sigs with
  | [] => (st, [], nextId)
  | s :: rest =>
      let st1 : ProxyState :=
        { st with signal_subscriptions :=
            st.signal_subscriptions ++ [(nextId, ifaceName ++ "." ++ s)] }
      let (st2, acts, n) := subscribe_all ifaceName rest (nextId + 1) st1
      (st2, BusAction.signal_subscribe ifaceName s :: acts, n)

/-- The registration loop of `setup_proxy_interfaces` (part_000 lines
936-983): on the first registration failure the function logs and returns
`FALSE` at once, abandoning all remaining interfaces; on success the id is
tracked in the ledger and the declared signals are subscribed. -/
def register_all (ifaces : List (InterfaceInfo × Nat)) (nextSub : Nat)
    (st : ProxyState) : Bool × ProxyState × List BusAction × Nat :=
  match ifaces with
  | [] => (true, st, [], nextSub)
  | (iface, regId) :: rest =>
      if regId = 0 then
        (false, st, [BusAction.register_object iface.name], nextSub)
      else
        let st1 : ProxyState :=
          { st with registered_objects := st.registered_objects ++ [(regId, iface.name)] }
        let (st2, subActs, n) := subscribe_all iface.name iface.signals nextSub st1
        let (ok, st3, acts, n2) := register_all rest n st2
        (ok, st3, BusAction.register_object iface.name :: (subActs ++ acts), n2)

/-- The body of `setup_proxy_interfaces` (part_000 lines 921-1004): fail
when the interfaces array pointer is `NULL` (modelled as `none`); otherwise
run the registration loop, and only when it completed subscribe once to
PropertiesChanged on the Properties interface at the object path and track
that id too. -/
def setup_proxy_interfaces (ifaces : Option (List (InterfaceInfo × Nat)))
    (st : ProxyState) : Bool × ProxyState × List BusAction :=
  match ifaces with
  | none => (false, st, [])
  | some l =>
      let (ok, st1, acts, n) := register_all l 1 st
      if ok then
        let st2 : ProxyState :=
          { st1 with signal_subscriptions := st1.signal_subscriptions
              ++ [(n, "org.freedesktop.DBus.Properties.PropertiesChanged")] }
        (true, st2,
          acts ++ [BusAction.signal_subscribe "org.freedesktop.DBus.Properties"
                     "PropertiesChanged"])
      else (false, st1, acts)

/-- The body of `cleanup_proxy_state` (part_000 lines 1043-1085), acting on
the global `proxy_state` pointer: a `NULL` state returns at once; otherwise
every tracked registration id is unregistered on the target bus, every
tracked subscription id is unsubscribed on the source bus, the tables are
destroyed and the state is freed and set to `NULL`. -/
def cleanup_proxy_state (st : Option ProxyState) : Option ProxyState × List BusAction :=
  match st with
  | none => (none, [])
  | some s =>
      (none,
        s.registered_objects.map (fun p => BusAction.unregister_object p.1) ++
          s.signal_subscriptions.map (fun p => BusAction.signal_unsubscribe p.1))

/-- The bus responses the cross-bus `main` branches on. `node_interfaces`
distinguishes a `NULL` interfaces array (`some none` would be ill-typed
here: the outer `Except` is the parse outcome, the inner `Option` the
array pointer). -/
structure Env where
  source_bus : Except GError Unit
  target_bus : Except GError Unit
  introspect_reply : Except GError Unit
  node_interfaces : Except GError (Option (List (InterfaceInfo × Nat)))

/-- An environment in which connection, introspection and parsing succeed
and the interfaces array is present with the given content. -/
def Env.allOk (ifaces : List (InterfaceInfo × Nat)) : Env :=
  { source_bus := .ok (), target_bus := .ok (), introspect_reply := .ok (),
    node_interfaces := .ok (some ifaces) }

/-- The outcome of the cross-bus `main` (part_000 lines 1138-1228): exit
status, the bus operations performed, and the modelled error reports. -/
structure MainResult where
  exit : Nat
  actions : List BusAction
  errors : List String
deriving Repr

/-- The pipeline of the cross-bus `main` after argument validation
(part_000 lines 1186-1227): `init_proxy_state` (empty ledger),
`connect_to_buses` (source first — failure aborts with exit 1 before any
introspection), `fetch_introspection_data`, `setup_proxy_interfaces`
(failure triggers `cleanup_proxy_state`, whose bus operations are
included, then exit 1), `acquire_bus_name`, then the main loop. -/
def main_run (env : Env) (proxy_bus_name : String) : MainResult :=
  match env.source_bus with
  | .error e =>
      { exit := 1, actions := [BusAction.connect_source],
        errors := ["Failed to connect to source bus: " ++ e.message] }
  | .ok _ =>
  match env.target_bus with
  | .error e =>
      { exit := 1, actions := [BusAction.connect_source, BusAction.connect_target],
        errors := ["Failed to connect to target bus: " ++ e.message] }
  | .ok _ =>
  match env.introspect_reply with
  | .error e =>
      { exit := 1,
        actions := [BusAction.connect_source, BusAction.connect_target,
                    BusAction.introspect_call],
        errors := ["Introspection failed: " ++ e.message] }
  | .ok _ =>
  match env.node_interfaces with
  | .error e =>
      { exit := 1,
        actions := [BusAction.connect_source, BusAction.connect_target,
                    BusAction.introspect_call],
        errors := ["Failed to parse introspection XML: " ++ e.message] }
  | .ok ifaces =>
      let (ok, st, acts) :=
        setup_proxy_interfaces ifaces
          { registered_objects := [], signal_subscriptions := [] }
      if ok then
        { exit := 0,
          actions := [BusAction.connect_source, BusAction.connect_target,
                      BusAction.introspect_call]
            ++ acts ++ [BusAction.own_name proxy_bus_name],
          errors := [] }
      else
        { exit := 1,
          actions := [BusAction.connect_source, BusAction.connect_target,
                      BusAction.introspect_call]
            ++ acts ++ (cleanup_proxy_state (some st)).2,
          errors := [] }

end CrossBusProxy

/-- Recognizer for object-registration actions. -/
def isRegisterAction : BusAction → Bool
  | .register_object _ => true
  | _ => false

/-- Recognizer for signal-subscription actions. -/
def isSubscribeAction : BusAction → Bool
  | .signal_subscribe _ _ => true
  | _ => false

/-- The single PropertiesChanged subscription action, on the standard
Properties interface. -/
def propertiesChangedSub : BusAction :=
  BusAction.signal_subscribe "org.freedesktop.DBus.Properties" "PropertiesChanged"

/-- The registration attempts among a list of bus operations, in order. -/
def registersOf (acts : List BusAction) : List BusAction :=
  acts.filter isRegisterAction

/-- The signal subscriptions among a list of bus operations, in order. -/
def subscribesOf (acts : List BusAction) : List BusAction :=
  acts.filter isSubscribeAction

/-- One subscription per declared signal of each interface whose
registration succeeded, in interface order: the subscriptions the spec
expects besides the PropertiesChanged one. -/
def declaredSubs (ifaces : List (InterfaceInfo × Nat)) : List BusAction :=
  (ifaces.filter (fun p => p.2 != 0)).flatMap
    (fun p => p.1.signals.map (BusAction.signal_subscribe p.1.name))

/-- The full set of replies delivered to one inbound invocation over its
lifecycle in `src/DBus_proxy.c`: those sent synchronously by
`handle_method_call` (none) followed by those sent by its completion
callback once the forwarded call resolves with `outcome`. -/
def DBusProxy.invocation_replies
    (source_bus_name source_object_path iface method : String) (params : GVariant)
    (outcome : Except GError GVariant) : List InvocationAction :=
  (DBusProxy.handle_method_call source_bus_name source_object_path iface method params).2
    ++ DBusProxy.handle_method_call_callback outcome

/-- The error reply delivered by one completion-callback run, if any:
either the GError handed to `return_gerror`, or the error rebuilt from the
domain, code and message handed to `return_error_literal`. -/
def replyErrorOf (acts : List InvocationAction) : Option GError :=
  match acts with
  | [InvocationAction.return_gerror e] => some e
  | [InvocationAction.return_error_literal d c m] =>
      some { domain := d, code := c, message := m }
  | _ => none

/-- The `"(ssv)"` variant member of a Properties.Set parameter container,
when present. -/
def ssvVariantPayload : GVariant → Option GVariant
  | .tuple3 _ _ (.variant v) => some v
  | _ => none

theorem filter_register_map_subscribe (name : String) (sigs : List String) :
    List.filter isRegisterAction (sigs.map (BusAction.signal_subscribe name)) = [] := by
  induction sigs with
  | nil => rfl
  | cons s rest ih => simp [isRegisterAction, ih]

theorem filter_subscribe_map_subscribe (name : String) (sigs : List String) :
    List.filter isSubscribeAction (sigs.map (BusAction.signal_subscribe name))
      = sigs.map (BusAction.signal_subscribe name) := by
  induction sigs with
  | nil => rfl
  | cons s rest ih => simp [isSubscribeAction, ih]

theorem DBusProxy.subscribe_signals_acts (name : String) (sigs : List String) :
    ∀ (n : Nat) (subs : List Nat),
      (DBusProxy.subscribe_signals name sigs n subs).2.1
        = sigs.map (BusAction.signal_subscribe name) := by
  induction sigs with
  | nil => intro n subs; rfl
  | cons s rest ih =>
      intro n subs
      rcases h : DBusProxy.subscribe_signals name rest (n + 1) (n :: subs) with ⟨a, b, c⟩
      have := ih (n + 1) (n :: subs)
      rw [h] at this
      simp at this
      simp [DBusProxy.subscribe_signals, h, this]

theorem DBusProxy.register_loop_registers (ifaces : List (InterfaceInfo × Nat)) :
    ∀ (n : Nat) (ctx : DBusProxy.ProxyContext),
      registersOf (DBusProxy.register_loop ifaces n ctx).2.1
        = ifaces.map (fun p => BusAction.register_object p.1.name) := by
  induction ifaces with
  | nil => intro n ctx; rfl
  | cons hd tl ih =>
      intro n ctx
      obtain ⟨iface, regId⟩ := hd
      by_cases h : regId = 0
      · rcases hr : DBusProxy.register_loop tl n
            { registration_id := 0,
              signal_subscriptions := ctx.signal_subscriptions } with ⟨c1, acts, n1⟩
        have := ih n
            { registration_id := 0,
              signal_subscriptions := ctx.signal_subscriptions }
        rw [hr] at this
        simp [DBusProxy.register_loop, h, hr, registersOf, isRegisterAction] at this ⊢
        exact this
      · rcases hs : DBusProxy.subscribe_signals iface.name iface.signals n
            ctx.signal_subscriptions with ⟨subs, subActs, n1⟩
        rcases hr : DBusProxy.register_loop tl n1
            { registration_id := regId, signal_subscriptions := subs } with ⟨c2, acts, n2⟩
        have hsub := DBusProxy.subscribe_signals_acts iface.name iface.signals n
            ctx.signal_subscriptions
        rw [hs] at hsub
        have hih := ih n1 { registration_id := regId, signal_subscriptions := subs }
        rw [hr] at hih
        simp at hsub hih
        simp [DBusProxy.register_loop, h, hs, hr, registersOf,
              List.filter_append, isRegisterAction] at hih ⊢
        subst hsub
        simp [filter_register_map_subscribe, hih]

theorem DBusProxy.register_loop_subscribes (ifaces : List (InterfaceInfo × Nat)) :
    ∀ (n : Nat) (ctx : DBusProxy.ProxyContext),
      subscribesOf (DBusProxy.register_loop ifaces n ctx).2.1 = declaredSubs ifaces := by
  induction ifaces with
  | nil => intro n ctx; rfl
  | cons hd tl ih =>
      intro n ctx
      obtain ⟨iface, regId⟩ := hd
      by_cases h : regId = 0
      · rcases hr : DBusProxy.register_loop tl n
            { registration_id := 0,
              signal_subscriptions := ctx.signal_subscriptions } with ⟨c1, acts, n1⟩
        have := ih n
            { registration_id := 0,
              signal_subscriptions := ctx.signal_subscriptions }
        rw [hr] at this
        simp at this
        simp [DBusProxy.register_loop, h, hr, subscribesOf, declaredSubs,
              isSubscribeAction, List.filter] at this ⊢
        simpa [subscribesOf, declaredSubs] using this
      · rcases hs : DBusProxy.subscribe_signals iface.name iface.signals n
            ctx.signal_subscriptions with ⟨subs, subActs, n1⟩
        rcases hr : DBusProxy.register_loop tl n1
            { registration_id := regId, signal_subscriptions := subs } with ⟨c2, acts, n2⟩
        have hsub := DBusProxy.subscribe_signals_acts iface.name iface.signals n
            ctx.signal_subscriptions
        rw [hs] at hsub
        have hih := ih n1 { registration_id := regId, signal_subscriptions := subs }
        rw [hr] at hih
        simp at hsub hih
        simp [DBusProxy.register_loop, h, hs, hr, subscribesOf, declaredSubs,
              List.filter_append, isSubscribeAction] at hih ⊢
        subst hsub
        simp [filter_subscribe_map_subscribe, hih, subscribesOf, declaredSubs]

theorem ConfigProxy.config_register_loop_registers (ifaces : List (InterfaceInfo × Nat)) :
    registersOf (ConfigProxy.register_loop ifaces)
      = ifaces.map (fun p => BusAction.register_object p.1.name) := by
  induction ifaces with
  | nil => rfl
  | cons hd tl ih =>
      obtain ⟨iface, regId⟩ := hd
      by_cases h : regId = 0
      · simp [ConfigProxy.register_loop, h, registersOf, isRegisterAction] at ih ⊢
        exact ih
      · simp [ConfigProxy.register_loop, h, registersOf, isRegisterAction,
              List.filter_append, filter_register_map_subscribe] at ih ⊢
        exact ih

theorem ConfigProxy.config_register_loop_subscribes (ifaces : List (InterfaceInfo × Nat)) :
    subscribesOf (ConfigProxy.register_loop ifaces) = declaredSubs ifaces := by
  induction ifaces with
  | nil => rfl
  | cons hd tl ih =>
      obtain ⟨iface, regId⟩ := hd
      by_cases h : regId = 0
      · simp [ConfigProxy.register_loop, h, subscribesOf, declaredSubs,
              isSubscribeAction] at ih ⊢
        simpa [subscribesOf, declaredSubs] using ih
      · simp [ConfigProxy.register_loop, h, subscribesOf, declaredSubs,
              isSubscribeAction, List.filter_append,
              filter_subscribe_map_subscribe] at ih ⊢
        simpa [subscribesOf, declaredSubs] using ih

theorem CrossBusProxy.subscribe_all_acts (name : String) (sigs : List String) :
    ∀ (n : Nat) (st : CrossBusProxy.ProxyState),
      (CrossBusProxy.subscribe_all name sigs n st).2.1
        = sigs.map (BusAction.signal_subscribe name) := by
  induction sigs with
  | nil => intro n st; rfl
  | cons s rest ih =>
      intro n st
      rcases h : CrossBusProxy.subscribe_all name rest (n + 1)
          { st with signal_subscriptions :=
              st.signal_subscriptions ++ [(n, name ++ "." ++ s)] } with ⟨a, b, c⟩
      have := ih (n + 1)
          { st with signal_subscriptions :=
              st.signal_subscriptions ++ [(n, name ++ "." ++ s)] }
      rw [h] at this
      simp at this
      simp [CrossBusProxy.subscribe_all, h, this]

theorem CrossBusProxy.register_all_ok (ifaces : List (InterfaceInfo × Nat)) :
    ∀ (n : Nat) (st : CrossBusProxy.ProxyState),
      (CrossBusProxy.register_all ifaces n st).1
        = ifaces.all (fun p => p.2 != 0) := by
  induction ifaces with
  | nil => intro n st; rfl
  | cons hd tl ih =>
      intro n st
      obtain ⟨iface, regId⟩ := hd
      by_cases h : regId = 0
      · subst h
        simp [CrossBusProxy.register_all]
      · rcases hs : CrossBusProxy.subscribe_all iface.name iface.signals n
            { st with registered_objects :=
                st.registered_objects ++ [(regId, iface.name)] } with ⟨st2, subActs, n1⟩
        rcases hr : CrossBusProxy.register_all tl n1 st2 with ⟨ok, st3, acts, n2⟩
        have := ih n1 st2
        rw [hr] at this
        simp at this
        simp [CrossBusProxy.register_all, h, hs, hr, this]

theorem CrossBusProxy.register_all_subscribes (ifaces : List (InterfaceInfo × Nat)) :
    ∀ (n : Nat) (st : CrossBusProxy.ProxyState),
      ifaces.all (fun p => p.2 != 0) = true →
        subscribesOf (CrossBusProxy.register_all ifaces n st).2.2.1
          = declaredSubs ifaces := by
  induction ifaces with
  | nil => intro n st _; rfl
  | cons hd tl ih =>
      intro n st hall
      obtain ⟨iface, regId⟩ := hd
      simp [List.all_cons] at hall
      obtain ⟨hnz, htl⟩ := hall
      have h : ¬ regId = 0 := by simpa using hnz
      rcases hs : CrossBusProxy.subscribe_all iface.name iface.signals n
          { st with registered_objects :=
              st.registered_objects ++ [(regId, iface.name)] } with ⟨st2, subActs, n1⟩
      rcases hr : CrossBusProxy.register_all tl n1 st2 with ⟨ok, st3, acts, n2⟩
      have hsub := CrossBusProxy.subscribe_all_acts iface.name iface.signals n
          { st with registered_objects :=
              st.registered_objects ++ [(regId, iface.name)] }
      rw [hs] at hsub
      simp at hsub
      have hih := ih n1 st2 (by simpa using htl)
      rw [hr] at hih
      simp at hih
      simp [CrossBusProxy.register_all, h, hs, hr, subscribesOf, declaredSubs,
            isSubscribeAction, List.filter_append, hnz] at hih ⊢
      subst hsub
      simp [filter_subscribe_map_subscribe, subscribesOf, declaredSubs, hih]

theorem CrossBusProxy.main_run_exit (ifaces : List (InterfaceInfo × Nat)) (ps : String) :
    (CrossBusProxy.main_run (CrossBusProxy.Env.allOk ifaces) ps).exit
      = if ifaces.all (fun p => p.2 != 0) then 0 else 1 := by
  rcases hr : CrossBusProxy.register_all ifaces 1
      { registered_objects := [], signal_subscriptions := [] } with ⟨ok, st1, acts, n⟩
  have hok := CrossBusProxy.register_all_ok ifaces 1
      { registered_objects := [], signal_subscriptions := [] }
  rw [hr] at hok
  simp at hok
  rw [← hok]
  cases ok <;>
    simp [CrossBusProxy.main_run, CrossBusProxy.Env.allOk,
          CrossBusProxy.setup_proxy_interfaces, hr]

/-- C1: for every inbound method invocation accepted by the facade
method-call handler, exactly one reply is eventually delivered — the
handler itself sends none, and the completion callback (which the
transport runs exactly once per forwarded call) sends exactly one,
the forwarded result on success and an error on failure — in all three
variants. -/
theorem C1_exactly_one_reply
    (source_bus_name source_object_path iface method : String) (params : GVariant)
    (outcome : Except GError GVariant) :
    (DBusProxy.handle_method_call source_bus_name source_object_path iface method
        params).2 = []
    ∧ (DBusProxy.invocation_replies source_bus_name source_object_path iface method
        params outcome).length = 1
    ∧ ((∃ v, outcome = Except.ok v
          ∧ DBusProxy.invocation_replies source_bus_name source_object_path iface
              method params outcome = [InvocationAction.return_value v])
        ∨ (∃ e, outcome = Except.error e
          ∧ DBusProxy.invocation_replies source_bus_name source_object_path iface
              method params outcome = [InvocationAction.return_gerror e]))
    ∧ (ConfigProxy.handle_method_call_callback outcome).length = 1
    ∧ (CrossBusProxy.handle_method_call_callback outcome).length = 1 := by
  refine ⟨rfl, ?_, ?_, ?_, ?_⟩ <;> cases outcome with
  | ok v =>
      first
      | exact Or.inl ⟨v, rfl, rfl⟩
      | rfl
  | error e =>
      first
      | exact Or.inr ⟨e, rfl, rfl⟩
      | rfl

/-- C4 counterexample: the config-file variant delivers the failure of a
forwarded call with the fixed `G_IO_ERROR` domain, not the domain of the
source-side error, so the error is not propagated verbatim there. -/
theorem C4_counterexample :
    replyErrorOf (ConfigProxy.handle_method_call_callback
        (Except.error { domain := "org.example.CustomQuark", code := 7,
                        message := "boom" }))
      = some { domain := "g-io-error-quark", code := 0, message := "boom" }
    ∧ "g-io-error-quark" ≠ "org.example.CustomQuark" := by
  exact ⟨rfl, by decide⟩

/-- C4 amended: when a forwarded call fails, `src/DBus_proxy.c` and the
cross-bus variant propagate the source-side error verbatim (domain, code
and message) via `return_gerror`; the config-file variant propagates only
the message verbatim, substituting the `G_IO_ERROR` domain with code
`G_IO_ERROR_FAILED`. -/
theorem C4_amended (e : GError) :
    replyErrorOf (DBusProxy.handle_method_call_callback (Except.error e)) = some e
    ∧ replyErrorOf (CrossBusProxy.handle_method_call_callback (Except.error e))
        = some e
    ∧ replyErrorOf (ConfigProxy.handle_method_call_callback (Except.error e))
        = some { domain := G_IO_ERROR, code := G_IO_ERROR_FAILED,
                 message := e.message } :=
  ⟨rfl, rfl, rfl⟩

/-- C7: the property-get handler unwraps the variant wrapper of the
Properties.Get reply and returns the inner value, the property-set handler
forwards the caller value unchanged as the variant member of the `"(ssv)"`
parameters, and on failure both handlers surface the source-side error
verbatim (the `GError` out-parameter receives it untouched). -/
theorem C7_property_relay (v r : GVariant) (e : GError) (iface prop : String)
    (value : GVariant) :
    DBusProxy.handle_get_property
        (Except.ok (GVariant.tuple1 (GVariant.variant v))) = Except.ok v
    ∧ DBusProxy.handle_get_property (Except.error e) = Except.error e
    ∧ ssvVariantPayload (DBusProxy.set_call_parameters iface prop value) = some value
    ∧ DBusProxy.handle_set_property (Except.ok r) = Except.ok ()
    ∧ DBusProxy.handle_set_property (Except.error e) = Except.error e :=
  ⟨rfl, rfl, rfl, rfl, rfl⟩

/-- C9 counterexample: teardown in `src/DBus_proxy.c` is not idempotent —
on a context holding subscription 5 and registration 2, one `cleanup_proxy`
invocation leaves the caller-visible context unchanged (no field is
cleared, no pointer nulled), and a second invocation re-issues the full
unsubscribe and unregister sequence instead of being a no-op. -/
theorem C9_counterexample :
    (DBusProxy.cleanup_proxy_call
        (some { registration_id := 2, signal_subscriptions := [5] })).1
      = some { registration_id := 2, signal_subscriptions := [5] }
    ∧ (DBusProxy.cleanup_proxy_call (DBusProxy.cleanup_proxy_call
        (some { registration_id := 2, signal_subscriptions := [5] })).1).2
      = [BusAction.signal_unsubscribe 5, BusAction.unregister_object 2]
    ∧ (DBusProxy.cleanup_proxy_call (DBusProxy.cleanup_proxy_call
        (some { registration_id := 2, signal_subscriptions := [5] })).1).2 ≠ [] := by
  exact ⟨rfl, rfl, by decide⟩

/-- C9 amended: release of all resources is idempotent in the cross-bus
variant — `cleanup_proxy_state` nulls the global state, so one call leaves
the `NULL` state, a second call changes nothing and performs no bus
operation, and a call on an empty ledger performs no bus operation — but
not in `src/DBus_proxy.c`: `cleanup_proxy` clears no field and cannot null
the pointer held by its caller, so after one invocation the caller-visible
context is unchanged (never an empty ledger) and a second invocation on it
repeats every unsubscribe and unregister of the first (on freed state);
only a `NULL` argument is a no-op. -/
theorem C9_amended (st : Option CrossBusProxy.ProxyState)
    (ctx : DBusProxy.ProxyContext) :
    (CrossBusProxy.cleanup_proxy_state (CrossBusProxy.cleanup_proxy_state st).1).1
        = (CrossBusProxy.cleanup_proxy_state st).1
    ∧ (CrossBusProxy.cleanup_proxy_state (CrossBusProxy.cleanup_proxy_state st).1).2
        = []
    ∧ (CrossBusProxy.cleanup_proxy_state st).1 = none
    ∧ (CrossBusProxy.cleanup_proxy_state
        (some { registered_objects := [], signal_subscriptions := [] })).2 = []
    ∧ (DBusProxy.cleanup_proxy_call (some ctx)).1 = some ctx
    ∧ (DBusProxy.cleanup_proxy_call (DBusProxy.cleanup_proxy_call (some ctx)).1).2
        = DBusProxy.cleanup_proxy ctx
    ∧ DBusProxy.cleanup_proxy_call none = (none, []) := by
  cases st <;> exact ⟨rfl, rfl, rfl, rfl, rfl, rfl, rfl⟩

/-- C10 counterexample: with verbose mode off, the config-file signal
handler neither logs a failed re-emission nor frees the emission error,
because its failure branch is guarded by the verbose flag. -/
theorem C10_counterexample :
    (ConfigProxy.on_signal_received false "com.example.Demo" "Ping"
        (Except.error { domain := "g-dbus-error-quark", code := 4,
                        message := "connection closed" })).freed_error = false
    ∧ (ConfigProxy.on_signal_received false "com.example.Demo" "Ping"
        (Except.error { domain := "g-dbus-error-quark", code := 4,
                        message := "connection closed" })).logged = [] :=
  ⟨rfl, rfl⟩

/-- C10 amended: when re-emitting a forwarded signal fails, the
`src/DBus_proxy.c` and cross-bus handlers log the failure and free the
error unconditionally, while the config-file handler does so only when
verbose mode is on; in every variant the handler returns normally — the
failure is never propagated to its caller, never terminates the proxy, and
every signal of a received stream is still processed regardless of earlier
emission failures. -/
theorem C10_amended (verbose : Bool) (iface sig : String) (e : GError)
    (outcome : Except GError Unit)
    (stream : List (String × String × Except GError Unit)) :
    (DBusProxy.on_signal_received verbose iface sig outcome).raised = none
    ∧ (ConfigProxy.on_signal_received verbose iface sig outcome).raised = none
    ∧ (CrossBusProxy.on_signal_received verbose iface sig outcome).raised = none
    ∧ (DBusProxy.on_signal_received verbose iface sig
        (Except.error e)).freed_error = true
    ∧ ("Failed to emit signal: " ++ e.message)
        ∈ (DBusProxy.on_signal_received verbose iface sig (Except.error e)).logged
    ∧ (CrossBusProxy.on_signal_received verbose iface sig
        (Except.error e)).freed_error = true
    ∧ ("Failed to forward signal: " ++ e.message)
        ∈ (CrossBusProxy.on_signal_received verbose iface sig (Except.error e)).logged
    ∧ (ConfigProxy.on_signal_received true iface sig
        (Except.error e)).freed_error = true
    ∧ (ConfigProxy.on_signal_received false iface sig
        (Except.error e)).freed_error = false
    ∧ (ConfigProxy.on_signal_received false iface sig (Except.error e)).logged = []
    ∧ (DBusProxy.forward_signals verbose stream).length = stream.length
    ∧ (ConfigProxy.forward_signals verbose stream).length = stream.length
    ∧ (CrossBusProxy.forward_signals verbose stream).length = stream.length := by
  refine ⟨?_, ?_, ?_, ?_, ?_, ?_, ?_, rfl, rfl, rfl, ?_, ?_, ?_⟩
  · cases outcome <;> cases verbose <;> rfl
  · cases outcome <;> cases verbose <;> simp [ConfigProxy.on_signal_received]
  · cases outcome <;> cases verbose <;> rfl
  · cases verbose <;> rfl
  · cases verbose <;> simp [DBusProxy.on_signal_received]
  · cases verbose <;> rfl
  · cases verbose <;> simp [CrossBusProxy.on_signal_received]
  · induction stream with
    | nil => rfl
    | cons hd tl ih =>
        obtain ⟨i, s, oc⟩ := hd
        simp [DBusProxy.forward_signals, ih]
  · induction stream with
    | nil => rfl
    | cons hd tl ih =>
        obtain ⟨i, s, oc⟩ := hd
        simp [ConfigProxy.forward_signals, ih]
  · induction stream with
    | nil => rfl
    | cons hd tl ih =>
        obtain ⟨i, s, oc⟩ := hd
        simp [CrossBusProxy.forward_signals, ih]

/-- C8: if connecting to the source bus fails at startup, `setup_proxy` of
`src/DBus_proxy.c` returns `NULL` without issuing the introspection call
and reports the connection error, `main` exits with status 1, and the
cross-bus variant likewise reports the error and exits 1 before any
introspection. -/
theorem C8_source_connect_failure (e : GError)
    (tb ix : Except GError Unit) (ni : Except GError (List (InterfaceInfo × Nat)))
    (tb2 ix2 : Except GError Unit)
    (ni2 : Except GError (Option (List (InterfaceInfo × Nat))))
    (sa ta ss sp ps : String) :
    (DBusProxy.setup_proxy ⟨Except.error e, tb, ix, ni⟩ sa ta ss sp ps).ctx = none
    ∧ BusAction.introspect_call
        ∉ (DBusProxy.setup_proxy ⟨Except.error e, tb, ix, ni⟩ sa ta ss sp ps).actions
    ∧ (DBusProxy.setup_proxy ⟨Except.error e, tb, ix, ni⟩ sa ta ss sp ps).errors
        = ["Failed to connect to source bus (" ++ sa ++ "): " ++ e.message]
    ∧ DBusProxy.main_exit ⟨Except.error e, tb, ix, ni⟩ sa ta ss sp ps = 1
    ∧ (CrossBusProxy.main_run ⟨Except.error e, tb2, ix2, ni2⟩ ps).exit = 1
    ∧ BusAction.introspect_call
        ∉ (CrossBusProxy.main_run ⟨Except.error e, tb2, ix2, ni2⟩ ps).actions
    ∧ (CrossBusProxy.main_run ⟨Except.error e, tb2, ix2, ni2⟩ ps).errors
        = ["Failed to connect to source bus: " ++ e.message] := by
  refine ⟨rfl, ?_, rfl, rfl, rfl, ?_, rfl⟩
  · simp [DBusProxy.setup_proxy]
  · simp [CrossBusProxy.main_run]

/-- C2 (code bug): with two interfaces both successfully registered (ids 1
and 2), `src/DBus_proxy.c` stores only the last id in its single
`registration_id` field, so `cleanup_proxy` unregisters only registration
2 and registration 1 is never released — while the cross-bus variant
tracks both ids in its ledger and `cleanup_proxy_state` releases both. -/
theorem C2_cleanup_misses_registration :
    (DBusProxy.setup_proxy (DBusProxy.Env.allOk
        [({ name := "com.example.A", signals := [] }, 1),
         ({ name := "com.example.B", signals := [] }, 2)])
        "system" "session" "org.example.Svc" "/org/example" "org.example.Proxy").ctx
      = some { registration_id := 2, signal_subscriptions := [] }
    ∧ DBusProxy.created_registrations
        [({ name := "com.example.A", signals := [] }, 1),
         ({ name := "com.example.B", signals := [] }, 2)] = [1, 2]
    ∧ DBusProxy.cleanup_proxy { registration_id := 2, signal_subscriptions := [] }
        = [BusAction.unregister_object 2]
    ∧ BusAction.unregister_object 1
        ∉ DBusProxy.cleanup_proxy { registration_id := 2, signal_subscriptions := [] }
    ∧ CrossBusProxy.cleanup_proxy_state
        (some { registered_objects := [(1, "com.example.A"), (2, "com.example.B")],
                signal_subscriptions := [] })
      = (none, [BusAction.unregister_object 1, BusAction.unregister_object 2]) := by
  refine ⟨rfl, rfl, rfl, by decide, rfl⟩

/-- C3 counterexample: in the cross-bus variant, introspection reporting
two interfaces with the second registration failing does not leave the
first registered and running — `setup_proxy_interfaces` aborts, `main`
exits 1 without acquiring the name, and the cleanup it triggers even
unregisters the first interface. -/
theorem C3_counterexample :
    (CrossBusProxy.setup_proxy_interfaces
        (some [({ name := "com.example.A", signals := [] }, 1),
               ({ name := "com.example.B", signals := [] }, 0)])
        { registered_objects := [], signal_subscriptions := [] }).1 = false
    ∧ (CrossBusProxy.main_run (CrossBusProxy.Env.allOk
          [({ name := "com.example.A", signals := [] }, 1),
           ({ name := "com.example.B", signals := [] }, 0)])
          "org.example.Proxy").exit = 1
    ∧ BusAction.unregister_object 1
        ∈ (CrossBusProxy.main_run (CrossBusProxy.Env.allOk
            [({ name := "com.example.A", signals := [] }, 1),
             ({ name := "com.example.B", signals := [] }, 0)])
            "org.example.Proxy").actions
    ∧ BusAction.own_name "org.example.Proxy"
        ∉ (CrossBusProxy.main_run (CrossBusProxy.Env.allOk
            [({ name := "com.example.A", signals := [] }, 1),
             ({ name := "com.example.B", signals := [] }, 0)])
            "org.example.Proxy").actions := by
  refine ⟨rfl, rfl, by decide, by decide⟩

/-- C3 amended: in `src/DBus_proxy.c` (and the config-file variant) a
failed interface registration is skipped, every interface is still
attempted, and setup proceeds to name acquisition and returns a running
context; in the cross-bus variant, setup succeeds only when every
registration succeeds — the first failure aborts setup and the process
exits 1. -/
theorem C3_amended (ifaces : List (InterfaceInfo × Nat)) (sa ta ss sp ps : String) :
    (DBusProxy.setup_proxy (DBusProxy.Env.allOk ifaces) sa ta ss sp ps).ctx.isSome
        = true
    ∧ registersOf
        (DBusProxy.setup_proxy (DBusProxy.Env.allOk ifaces) sa ta ss sp ps).actions
        = ifaces.map (fun p => BusAction.register_object p.1.name)
    ∧ BusAction.own_name ps
        ∈ (DBusProxy.setup_proxy (DBusProxy.Env.allOk ifaces) sa ta ss sp ps).actions
    ∧ registersOf (ConfigProxy.setup_actions ifaces ps)
        = ifaces.map (fun p => BusAction.register_object p.1.name)
    ∧ BusAction.own_name ps ∈ ConfigProxy.setup_actions ifaces ps
    ∧ (CrossBusProxy.setup_proxy_interfaces (some ifaces)
        { registered_objects := [], signal_subscriptions := [] }).1
        = ifaces.all (fun p => p.2 != 0)
    ∧ (CrossBusProxy.main_run (CrossBusProxy.Env.allOk ifaces) ps).exit
        = if ifaces.all (fun p => p.2 != 0) then 0 else 1 := by
  rcases hr : DBusProxy.register_loop ifaces 1
      { registration_id := 0, signal_subscriptions := [] } with ⟨ctx, acts, n⟩
  have h1 := DBusProxy.register_loop_registers ifaces 1
      { registration_id := 0, signal_subscriptions := [] }
  rw [hr] at h1
  simp at h1
  rcases hc : CrossBusProxy.register_all ifaces 1
      { registered_objects := [], signal_subscriptions := [] } with ⟨ok, st1, cacts, cn⟩
  have h2 := CrossBusProxy.register_all_ok ifaces 1
      { registered_objects := [], signal_subscriptions := [] }
  rw [hc] at h2
  simp at h2
  refine ⟨?_, ?_, ?_, ?_, ?_, ?_, ?_⟩
  · simp [DBusProxy.setup_proxy, DBusProxy.Env.allOk, hr]
  · simp [DBusProxy.setup_proxy, DBusProxy.Env.allOk, hr, registersOf,
          List.filter_append, isRegisterAction]
    simpa [registersOf] using h1
  · simp [DBusProxy.setup_proxy, DBusProxy.Env.allOk, hr]
  · simp [ConfigProxy.setup_actions, ConfigProxy.subscribe_to_properties_changed,
          registersOf, List.filter_append, isRegisterAction]
    simpa [registersOf] using ConfigProxy.config_register_loop_registers ifaces
  · simp [ConfigProxy.setup_actions]
  · rw [← h2]
    cases ok <;> simp [CrossBusProxy.setup_proxy_interfaces, hc]
  · exact CrossBusProxy.main_run_exit ifaces ps

/-- C5 counterexample: for a `src/DBus_proxy.c` context whose source
exposes one interface with one declared signal, the number of
PropertiesChanged subscriptions created during setup is not one — that
variant never subscribes to PropertiesChanged at all. -/
theorem C5_counterexample :
    ((DBusProxy.setup_proxy (DBusProxy.Env.allOk
          [({ name := "com.example.Demo", signals := ["Ping"] }, 1)])
        "system" "session" "org.example.Svc" "/org/example"
        "org.example.Proxy").actions.count propertiesChangedSub) ≠ 1 := by
  decide

/-- C5 amended: the config-file and cross-bus variants create, besides one
subscription per declared signal of each registered interface, exactly one
further subscription for PropertiesChanged on the Properties interface
(in the cross-bus variant once the registration loop completed, since a
registration failure aborts setup first); the `src/DBus_proxy.c` variant
creates only the per-declared-signal subscriptions and no PropertiesChanged
subscription. -/
theorem C5_amended (ifaces : List (InterfaceInfo × Nat)) (sa ta ss sp ps : String) :
    subscribesOf
        (DBusProxy.setup_proxy (DBusProxy.Env.allOk ifaces) sa ta ss sp ps).actions
      = declaredSubs ifaces
    ∧ subscribesOf (ConfigProxy.setup_actions ifaces ps)
      = declaredSubs ifaces ++ [propertiesChangedSub]
    ∧ subscribesOf (CrossBusProxy.setup_proxy_interfaces
          (some (ifaces.map (fun p => (p.1, p.2 + 1))))
          { registered_objects := [], signal_subscriptions := [] }).2.2
      = declaredSubs (ifaces.map (fun p => (p.1, p.2 + 1)))
          ++ [propertiesChangedSub] := by
  have hall : (ifaces.map (fun p => (p.1, p.2 + 1))).all (fun p => p.2 != 0)
      = true := by
    induction ifaces with
    | nil => rfl
    | cons hd tl ih => simp [ih]
  rcases hr : DBusProxy.register_loop ifaces 1
      { registration_id := 0, signal_subscriptions := [] } with ⟨ctx, acts, n⟩
  have h1 := DBusProxy.register_loop_subscribes ifaces 1
      { registration_id := 0, signal_subscriptions := [] }
  rw [hr] at h1
  simp at h1
  rcases hc : CrossBusProxy.register_all (ifaces.map (fun p => (p.1, p.2 + 1))) 1
      { registered_objects := [], signal_subscriptions := [] } with ⟨ok, st1, cacts, cn⟩
  have h2 := CrossBusProxy.register_all_ok (ifaces.map (fun p => (p.1, p.2 + 1))) 1
      { registered_objects := [], signal_subscriptions := [] }
  rw [hc] at h2
  have hok : ok = true := by
    have h2' : ok = (ifaces.map (fun p => (p.1, p.2 + 1))).all (fun p => p.2 != 0) := h2
    rw [hall] at h2'
    exact h2'
  have h3 := CrossBusProxy.register_all_subscribes
      (ifaces.map (fun p => (p.1, p.2 + 1))) 1
      { registered_objects := [], signal_subscriptions := [] } hall
  rw [hc] at h3
  simp at h3
  refine ⟨?_, ?_, ?_⟩
  · simp [DBusProxy.setup_proxy, DBusProxy.Env.allOk, hr, subscribesOf,
          List.filter_append, isSubscribeAction]
    simpa [subscribesOf] using h1
  · simp [ConfigProxy.setup_actions, ConfigProxy.subscribe_to_properties_changed,
          subscribesOf, List.filter_append, isSubscribeAction, propertiesChangedSub]
    simpa [subscribesOf] using ConfigProxy.config_register_loop_subscribes ifaces
  · simp [CrossBusProxy.setup_proxy_interfaces, hc, hok, subscribesOf,
          List.filter_append, isSubscribeAction, propertiesChangedSub]
    simpa [subscribesOf] using h3

/-- C6 counterexample: introspection yielding an empty interface list is
not an error in `src/DBus_proxy.c` — `setup_proxy` still returns a context
and proceeds to name acquisition with zero interfaces. -/
theorem C6_counterexample :
    (DBusProxy.setup_proxy (DBusProxy.Env.allOk []) "system" "session"
        "org.example.Svc" "/org/example" "org.example.Proxy").ctx.isSome = true
    ∧ BusAction.own_name "org.example.Proxy"
        ∈ (DBusProxy.setup_proxy (DBusProxy.Env.allOk []) "system" "session"
            "org.example.Svc" "/org/example" "org.example.Proxy").actions := by
  exact ⟨rfl, by decide⟩

/-- C6 amended: an empty interface list is not itself an error:
`src/DBus_proxy.c` proceeds to name acquisition with zero interfaces, and
the cross-bus variant fails setup only when the interfaces array pointer
is NULL — with a present-but-empty array it also proceeds, subscribing to
PropertiesChanged and exiting setup successfully. -/
theorem C6_amended (sa ta ss sp ps : String) (st : CrossBusProxy.ProxyState) :
    (DBusProxy.setup_proxy (DBusProxy.Env.allOk []) sa ta ss sp ps).ctx
        = some { registration_id := 0, signal_subscriptions := [] }
    ∧ BusAction.own_name ps
        ∈ (DBusProxy.setup_proxy (DBusProxy.Env.allOk []) sa ta ss sp ps).actions
    ∧ (CrossBusProxy.setup_proxy_interfaces none st).1 = false
    ∧ (CrossBusProxy.setup_proxy_interfaces (some []) st).1 = true
    ∧ (CrossBusProxy.setup_proxy_interfaces (some []) st).2.2
        = [propertiesChangedSub]
    ∧ (CrossBusProxy.main_run (CrossBusProxy.Env.allOk []) ps).exit = 0 := by
  refine ⟨rfl, ?_, rfl, rfl, rfl, rfl⟩
  · simp [DBusProxy.setup_proxy, DBusProxy.Env.allOk, DBusProxy.register_loop]
